import Mathlib

/-!
# Verification of the trade-extraction pipeline

Shallow embedding of `src/tools/enhanced_extract_trade.py`:
OCR extraction, AI-response record building, numeric normalization,
multi-sink persistence and batch orchestration.

Conventions of the embedding:
* Python floats are modelled as rationals (`ℚ`); no arithmetic performed by
  the code under study depends on binary rounding.
* External effects (filesystem, OCR engine, network) are passed in
  explicitly: the filesystem as an `FS` value, per-image OCR/AI data as an
  `ImgEnv` record.
* Python exceptions are modelled with `Except PyErr`.
-/

namespace TradeExtract

/-- A Python value as it can reach `parse_pnl_amount` (pydantic
`mode='before'` validator input).  `other` stands for any value that is
none of `None`/`bool`/`int`/`float`/`str` (e.g. a list or dict), which the
validator answers with `None`. -/
inductive PyVal where
  | none
  | bool (b : Bool)
  | int (n : Int)
  | float (q : ℚ)
  | str (s : String)
  | other
deriving DecidableEq

/-- Numeric value of a list of decimal digit characters (most significant
first). -/
def digitsToNat (ds : List Char) : Nat :=
  ds.foldl (fun a c => a * 10 + (c.toNat - 48)) 0

/-- The rational `± ip.fr × 10^e` given the sign, the integer-part and
fraction digit strings, and a decimal exponent (built with `mkRat` and
integer arithmetic so that it evaluates). -/
def ratOfParts (neg : Bool) (ip fr : List Char) (e : Int) : ℚ :=
  let n : Nat := digitsToNat ip * 10 ^ fr.length + digitsToNat fr
  let num : Int := if neg then -(n : Int) else (n : Int)
  match e with
  | .ofNat k => mkRat (num * ((10 ^ k : Nat) : Int)) (10 ^ fr.length)
  | .negSucc k => mkRat num (10 ^ fr.length * 10 ^ (k + 1))

/-- Model of Python's builtin `float(str)` on strings made of digits,
`.`, `+`, `-` (the only characters that survive the cleaning in
`parse_pnl_amount`): an optional sign, then either `D+`, `D+.D*` or
`.D+`.  Exponents, `inf`/`nan` and whitespace cannot occur in cleaned
strings, so they are not modelled; any other shape raises `ValueError`,
modelled as `none`. -/
def pyFloat (s : String) : Option ℚ :=
  let signRest : Bool × List Char :=
    match s.data with
    | '+' :: r => (false, r)
    | '-' :: r => (true, r)
    | r => (false, r)
  let neg := signRest.1
  let rest := signRest.2
  let ip := rest.takeWhile Char.isDigit
  let rest2 := rest.drop ip.length
  match rest2 with
  | [] => if ip.isEmpty then none else some (ratOfParts neg ip [] 0)
  | '.' :: fr =>
    if fr.all Char.isDigit && (!ip.isEmpty || !fr.isEmpty) then
      some (ratOfParts neg ip fr 0)
    else none
  | _ => none

/-- The character filter of `re.sub(r'[^\d\.\-\+]', '', ...)`: keep
decimal digits, dots and plus/minus signs, wherever they occur.
(Python's `\d` also matches non-ASCII decimal digits; the model restricts
to ASCII, which covers every input the claims touch.) -/
def pnlKeep (c : Char) : Bool :=
  c.isDigit || c = '.' || c = '-' || c = '+'

/-- The cleaned string of `parse_pnl_amount`: `v.replace(',', '')`
followed by the regex substitution.  The comma removal is subsumed by the
regex (a comma never matches `pnlKeep`). -/
def pnlClean (s : String) : String :=
  String.mk (s.data.filter pnlKeep)

/-- `TradeData.parse_pnl_amount` (pydantic `field_validator`,
`mode='before'`): `None`/`""` give `None`; `int`/`float` (and `bool`,
which Python's `isinstance(v, (int, float))` also accepts) pass through
`float(v)`; strings are cleaned with `pnlClean` and parsed with
`float`, a residual `ValueError` giving `None`; everything else gives
`None`. -/
def parse_pnl_amount : PyVal → Option ℚ
  | .none => Option.none
  | .bool b => some (if b then (1 : ℚ) else 0)
  | .int n => some (n : ℚ)
  | .float q => some q
  | .str s =>
    if s = "" then Option.none
    else
      let cleaned := pnlClean s
      if cleaned = "" then Option.none
      else pyFloat cleaned
  | .other => Option.none

/-- Re-inject the validator's result as a Python value, for stating
idempotence of normalization. -/
def optToPy : Option ℚ → PyVal
  | Option.none => .none
  | some q => .float q

/-! ## JSON values and a model of `json.loads` -/

/-- A parsed JSON value.  Numbers are rationals (covering both ints and
floats produced by `json.loads`). -/
inductive JsonVal where
  | null
  | bool (b : Bool)
  | num (q : ℚ)
  | str (s : String)
  | arr (elems : List JsonVal)
  | obj (fields : List (String × JsonVal))

/-- JSON whitespace (the characters `json.loads` skips between tokens). -/
def isJsonWs (c : Char) : Bool :=
  c = ' ' || c = '\t' || c = '\n' || c = '\r'

def skipWs (cs : List Char) : List Char :=
  cs.dropWhile isJsonWs

/-- Value of a hexadecimal digit, if any. -/
def hexVal (c : Char) : Option Nat :=
  if '0' ≤ c ∧ c ≤ '9' then some (c.toNat - 48)
  else if 'a' ≤ c ∧ c ≤ 'f' then some (c.toNat - 87)
  else if 'A' ≤ c ∧ c ≤ 'F' then some (c.toNat - 55)
  else Option.none

/-- JSON string body after the opening quote (fuelled).  Returns the
decoded characters and the remaining input after the closing quote.
`\uXXXX` escapes are decoded for non-surrogate code points; surrogate
halves (which Python accepts and pairs) are outside the model and fail. -/
def parseStrBody : Nat → List Char → Option (List Char × List Char)
  | 0, _ => Option.none
  | _ + 1, [] => Option.none
  | fuel + 1, c :: r =>
    if c = '"' then some ([], r)
    else if c = '\\' then
      match r with
      | '"' :: r2 => (parseStrBody fuel r2).map (fun p => ('"' :: p.1, p.2))
      | '\\' :: r2 => (parseStrBody fuel r2).map (fun p => ('\\' :: p.1, p.2))
      | '/' :: r2 => (parseStrBody fuel r2).map (fun p => ('/' :: p.1, p.2))
      | 'b' :: r2 => (parseStrBody fuel r2).map (fun p => ('\x08' :: p.1, p.2))
      | 'f' :: r2 => (parseStrBody fuel r2).map (fun p => ('\x0c' :: p.1, p.2))
      | 'n' :: r2 => (parseStrBody fuel r2).map (fun p => ('\n' :: p.1, p.2))
      | 'r' :: r2 => (parseStrBody fuel r2).map (fun p => ('\r' :: p.1, p.2))
      | 't' :: r2 => (parseStrBody fuel r2).map (fun p => ('\t' :: p.1, p.2))
      | 'u' :: h1 :: h2 :: h3 :: h4 :: r2 => do
        let a ← hexVal h1
        let b ← hexVal h2
        let c3 ← hexVal h3
        let d ← hexVal h4
        let n := ((a * 16 + b) * 16 + c3) * 16 + d
        if 0xD800 ≤ n ∧ n ≤ 0xDFFF then Option.none
        else (parseStrBody fuel r2).map (fun p => (Char.ofNat n :: p.1, p.2))
      | _ => Option.none
    else if c.toNat < 0x20 then Option.none
    else (parseStrBody fuel r).map (fun p => (c :: p.1, p.2))

/-- JSON number, starting at a `-` or digit.  Enforces JSON's grammar:
no leading `+`, no leading zeros, at least one digit after `.`, optional
exponent. -/
def parseNum (cs : List Char) : Option (ℚ × List Char) :=
  let signRest : Bool × List Char :=
    match cs with
    | '-' :: r => (true, r)
    | r => (false, r)
  let neg := signRest.1
  let r := signRest.2
  let ip := r.takeWhile Char.isDigit
  let r2 := r.drop ip.length
  if ip.isEmpty then Option.none
  else if 1 < ip.length ∧ ip.head? = some '0' then Option.none
  else
    let fracRest : Option (List Char × List Char) :=
      match r2 with
      | '.' :: r3 =>
        let fr := r3.takeWhile Char.isDigit
        if fr.isEmpty then Option.none else some (fr, r3.drop fr.length)
      | r3 => some ([], r3)
    match fracRest with
    | Option.none => Option.none
    | some (fr, r4) =>
      let expRest : Option (Int × List Char) :=
        match r4 with
        | c :: r5 =>
          if c = 'e' ∨ c = 'E' then
            let esRest : Int × List Char :=
              match r5 with
              | '+' :: r6 => (1, r6)
              | '-' :: r6 => (-1, r6)
              | r6 => (1, r6)
            let ds := esRest.2.takeWhile Char.isDigit
            if ds.isEmpty then Option.none
            else some (esRest.1 * (digitsToNat ds : Int), esRest.2.drop ds.length)
          else some (0, c :: r5)
        | [] => some (0, [])
      match expRest with
      | Option.none => Option.none
      | some (e, r7) => some (ratOfParts neg ip fr e, r7)

/-- Check that `lit` is a prefix of `cs` and return the rest. -/
def expectLit (lit : List Char) (cs : List Char) : Option (List Char) :=
  match lit, cs with
  | [], rest => some rest
  | l :: ls, c :: rest => if c = l then expectLit ls rest else Option.none
  | _ :: _, [] => Option.none

mutual

/-- One JSON value (fuelled recursive-descent), model of the grammar
`json.loads` accepts. -/
def parseVal : Nat → List Char → Option (JsonVal × List Char)
  | 0, _ => Option.none
  | fuel + 1, cs =>
    match skipWs cs with
    | [] => Option.none
    | c :: r =>
      if c = 'n' then (expectLit ['u', 'l', 'l'] r).map (fun rest => (.null, rest))
      else if c = 't' then (expectLit ['r', 'u', 'e'] r).map (fun rest => (.bool true, rest))
      else if c = 'f' then (expectLit ['a', 'l', 's', 'e'] r).map (fun rest => (.bool false, rest))
      else if c = '"' then
        (parseStrBody (r.length + 1) r).map (fun p => (.str (String.mk p.1), p.2))
      else if c = '[' then
        match skipWs r with
        | ']' :: r2 => some (.arr [], r2)
        | r2 => (parseItems fuel r2).map (fun p => (.arr p.1, p.2))
      else if c = Char.ofNat 123 then
        match skipWs r with
        | c2 :: r2 =>
          if c2 = Char.ofNat 125 then some (.obj [], r2)
          else (parseMembers fuel (c2 :: r2)).map (fun p => (.obj p.1, p.2))
        | [] => Option.none
      else if c = '-' ∨ c.isDigit then
        (parseNum (c :: r)).map (fun p => (.num p.1, p.2))
      else Option.none

/-- Comma-separated array items up to the closing `]`. -/
def parseItems : Nat → List Char → Option (List JsonVal × List Char)
  | 0, _ => Option.none
  | fuel + 1, cs => do
    let (v, rest) ← parseVal fuel cs
    match skipWs rest with
    | ',' :: r2 => (parseItems fuel r2).map (fun p => (v :: p.1, p.2))
    | ']' :: r2 => some ([v], r2)
    | _ => Option.none

/-- Comma-separated object members up to the closing brace. -/
def parseMembers : Nat → List Char → Option (List (String × JsonVal) × List Char)
  | 0, _ => Option.none
  | fuel + 1, cs =>
    match skipWs cs with
    | '"' :: r => do
      let (k, rest) ← parseStrBody (r.length + 1) r
      match skipWs rest with
      | ':' :: r2 => do
        let (v, rest2) ← parseVal fuel r2
        match skipWs rest2 with
        | ',' :: r3 => (parseMembers fuel r3).map (fun p => ((String.mk k, v) :: p.1, p.2))
        | c3 :: r3 => if c3 = Char.ofNat 125 then some ([(String.mk k, v)], r3) else Option.none
        | [] => Option.none
      | _ => Option.none
    | _ => Option.none

end

/-- Model of `json.loads`: parse one value, allow surrounding
whitespace, reject trailing garbage; `none` models a raised
`json.JSONDecodeError`. -/
def jsonParse (s : String) : Option JsonVal :=
  match parseVal (2 * s.length + 4) s.data with
  | some (v, rest) => if skipWs rest = [] then some v else Option.none
  | Option.none => Option.none

/-! ## Python string helpers -/

/-- Model of Python `str.strip()`: drop leading and trailing whitespace
(ASCII whitespace; Python also strips some Unicode spaces, which no input
of interest contains). -/
def stripList (cs : List Char) : List Char :=
  ((cs.dropWhile Char.isWhitespace).reverse.dropWhile Char.isWhitespace).reverse

def pyStrip (s : String) : String :=
  String.mk (stripList s.data)

/-- Model of Python `s.startswith(p)`. -/
def strStartsWith (p s : String) : Bool :=
  p.data.isPrefixOf s.data

/-- Model of the Python slice `s[a:-b]` (for `a, b ≥ 0`). -/
def pySlice (s : String) (a b : Nat) : String :=
  String.mk ((s.data.drop a).take ((s.data.drop a).length - b))

/-- Model of the Python slice `s[:n]`. -/
def strTake (s : String) (n : Nat) : String :=
  String.mk (s.data.take n)

/-- Model of `os.path.basename`: the part after the last `/`. -/
def basename (p : String) : String :=
  String.mk (p.data.reverse.takeWhile (fun c => c ≠ '/')).reverse

/-- Model of `f"{x:.1f}%"` for a non-negative confidence: one decimal
place (the model rounds half up where CPython rounds the underlying
binary float half to even; no claim inspects this string). -/
def fmtPercent (q : ℚ) : String :=
  let scaled := mkRat (q.num * 10) q.den
  let n : Int := (2 * scaled.num + (scaled.den : Int)) / (2 * (scaled.den : Int))
  toString (n / 10) ++ "." ++ toString (n % 10).natAbs ++ "%"

/-! ## Exceptions and the Trade Record -/

/-- A raised Python exception, with its `str(e)` message. -/
inductive PyErr where
  | fileNotFound (msg : String)
  | serviceError (msg : String)
  | attributeError (msg : String)
  | validationError (msg : String)
deriving DecidableEq

/-- `str(e)` of an exception. -/
def errMsg : PyErr → String
  | .fileNotFound m => m
  | .serviceError m => m
  | .attributeError m => m
  | .validationError m => m

/-- The pydantic model `TradeData` after validation. -/
structure TradeData where
  trade_id : String
  ticker : Option String := Option.none
  timeframe : Option String := Option.none
  entry_price : Option ℚ := Option.none
  exit_price : Option ℚ := Option.none
  direction : Option String := Option.none
  pnl : Option String := Option.none
  pnl_amount : Option ℚ := Option.none
  date_time : Option String := Option.none
  reason_or_annotations : Option String := Option.none
  image_source : Option String := Option.none
  logged_at : String
  ocr_confidence : Option String := Option.none
deriving DecidableEq

/-- The OCR info dict returned by `extract_text_from_image`. -/
structure OcrInfo where
  confidence : ℚ
  total_words : Nat
  image_size : Nat × Nat
deriving DecidableEq

/-- Python dict lookup for a parsed JSON object (duplicate keys: last
occurrence wins, as in `json.loads`). -/
def objGet (kvs : List (String × JsonVal)) (k : String) : Option JsonVal :=
  kvs.foldl (fun acc p => if p.1 = k then some p.2 else acc) Option.none

def typeName : JsonVal → String
  | .null => "NoneType"
  | .bool _ => "bool"
  | .num _ => "float"
  | .str _ => "str"
  | .arr _ => "list"
  | .obj _ => "dict"

/-- `data.get(k)`: dict lookup, raising `AttributeError` when `data` is
not a dict (e.g. a parsed JSON array or scalar). -/
def pyGetField (v : JsonVal) (k : String) : Except PyErr (Option JsonVal) :=
  match v with
  | .obj kvs => .ok (objGet kvs k)
  | _ =>
    .error (.attributeError
      (String.append (String.append "'" (typeName v)) "' object has no attribute 'get'"))

/-- pydantic validation of an `Optional[str]` field: absent or `null`
gives `None`; a string passes; any other JSON value raises
`ValidationError`. -/
def asOptStr (v : Option JsonVal) : Except PyErr (Option String) :=
  match v with
  | Option.none => .ok Option.none
  | some .null => .ok Option.none
  | some (.str s) => .ok (some s)
  | some w =>
    .error (.validationError (String.append "Input should be a valid string: " (typeName w)))

/-- pydantic validation of an `Optional[float]` field: absent or `null`
gives `None`; a number passes; a numeric string is coerced (lax mode,
modelled with `pyFloat`); anything else raises `ValidationError`. -/
def asOptFloat (v : Option JsonVal) : Except PyErr (Option ℚ) :=
  match v with
  | Option.none => .ok Option.none
  | some .null => .ok Option.none
  | some (.num q) => .ok (some q)
  | some (.str s) =>
    match pyFloat s with
    | some q => .ok (some q)
    | Option.none =>
      .error (.validationError "Input should be a valid number")
  | some w =>
    .error (.validationError (String.append "Input should be a valid number: " (typeName w)))

/-- A JSON value as the Python object `json.loads` produces, as seen by
the `parse_pnl_amount` validator. -/
def jsonToPy : Option JsonVal → PyVal
  | Option.none => .none
  | some .null => .none
  | some (.bool b) => .bool b
  | some (.num q) => .float q
  | some (.str s) => .str s
  | some (.arr _) => .other
  | some (.obj _) => .other

/-! ## `create_trade_record` -/

/-- The fence-stripping prelude of `create_trade_record`: strip the
response; if it starts with a code fence, cut the leading marker and the
last three characters and strip again. -/
def cleanResponse (ai_json : String) : String :=
  let cleaned := pyStrip ai_json
  if strStartsWith "```json" cleaned then pyStrip (pySlice cleaned 7 3)
  else if strStartsWith "```" cleaned then pyStrip (pySlice cleaned 3 3)
  else cleaned

/-- `create_trade_record`: strip an optional code fence, `json.loads`
the result (a parse error is absorbed into an `{"error": ...}` dict),
then build the pydantic `TradeData` from `data.get(...)` of each field.
`uuid` stands for `str(uuid.uuid4())` and `nowIso` for
`datetime.now().isoformat()`, passed in explicitly. -/
def create_trade_record (ai_json image_path : String) (ocr_info : OcrInfo)
    (uuid nowIso : String) : Except PyErr TradeData := do
  let cleaned := cleanResponse ai_json
  let data : JsonVal :=
    match jsonParse cleaned with
    | some v => v
    | Option.none => .obj [("error", .str "JSON parse error")]
  let tickerV ← pyGetField data "ticker"
  let timeframeV ← pyGetField data "timeframe"
  let entryV ← pyGetField data "entry_price"
  let exitV ← pyGetField data "exit_price"
  let directionV ← pyGetField data "direction"
  let pnlV ← pyGetField data "pnl"
  let pnlAmountV ← pyGetField data "pnl_amount"
  let dateTimeV ← pyGetField data "date_time"
  let reasonV ← pyGetField data "reason_or_annotations"
  let ticker ← asOptStr tickerV
  let timeframe ← asOptStr timeframeV
  let entry_price ← asOptFloat entryV
  let exit_price ← asOptFloat exitV
  let direction ← asOptStr directionV
  let pnl ← asOptStr pnlV
  let pnl_amount := parse_pnl_amount (jsonToPy pnlAmountV)
  let date_time ← asOptStr dateTimeV
  let reason_or_annotations ← asOptStr reasonV
  .ok {
    trade_id := strTake uuid 8
    ticker, timeframe, entry_price, exit_price, direction, pnl, pnl_amount
    date_time, reason_or_annotations
    image_source := some (basename image_path)
    logged_at := nowIso
    ocr_confidence := some (fmtPercent ocr_info.confidence) }

/-! ## Persistence sink -/

/-- The `daily_summary_*.json` document. -/
structure DailySummary where
  date : String
  trades : List TradeData
  total_trades : Nat
  total_pnl : ℚ
  created_at : String
  updated_at : Option String
deriving DecidableEq

/-- The filesystem slice the sink touches: the append-only JSONL log (a
list of lines), the artifact files and the daily summary files (finite
maps as association lists keyed by path).  Paths are relative to
`BASE_DIR`; directory creation (`os.makedirs(..., exist_ok=True)`) has no
observable effect in this model. -/
structure FS where
  log : List String
  artifacts : List (String × String)
  summaries : String → Option DailySummary

def TRADE_LOG_PATH : String := "logs/trade_log.jsonl"
def OUTPUT_DIR : String := "output"
def SUMMARIES_DIR : String := "summaries"

def quoteStr (s : String) : String :=
  String.append "\"" (String.append s "\"")

def jsonOptStr : Option String → String
  | Option.none => "null"
  | some s => quoteStr s

def jsonOptNum : Option ℚ → String
  | Option.none => "null"
  | some v => toString v

/-- Model of `trade.model_dump_json()`: the record as one self-contained
JSON line. -/
def model_dump_json (t : TradeData) : String :=
  "\x7b\"trade_id\": " ++ quoteStr t.trade_id ++
  ", \"ticker\": " ++ jsonOptStr t.ticker ++
  ", \"timeframe\": " ++ jsonOptStr t.timeframe ++
  ", \"entry_price\": " ++ jsonOptNum t.entry_price ++
  ", \"exit_price\": " ++ jsonOptNum t.exit_price ++
  ", \"direction\": " ++ jsonOptStr t.direction ++
  ", \"pnl\": " ++ jsonOptStr t.pnl ++
  ", \"pnl_amount\": " ++ jsonOptNum t.pnl_amount ++
  ", \"date_time\": " ++ jsonOptStr t.date_time ++
  ", \"reason_or_annotations\": " ++ jsonOptStr t.reason_or_annotations ++
  ", \"image_source\": " ++ jsonOptStr t.image_source ++
  ", \"logged_at\": " ++ quoteStr t.logged_at ++
  ", \"ocr_confidence\": " ++ jsonOptStr t.ocr_confidence ++ "\x7d"

/-- `json.dump` of the recomputed summary: overwrite the file at `k`. -/
def setSummary (m : String → Option DailySummary) (k : String) (v : DailySummary) :
    String → Option DailySummary :=
  fun j => if j = k then some v else m j

def artifactPath (t : TradeData) (ts : String) : String :=
  OUTPUT_DIR ++ "/trade_" ++ t.trade_id ++ "_" ++ ts ++ ".json"

def summaryPath (day : String) : String :=
  SUMMARIES_DIR ++ "/daily_summary_" ++ day ++ ".json"

/-- `sum(t.get("pnl_amount") or 0 for t in trades)`: sum of `pnl_amount`
with `None` read as `0`. -/
def sumPnl (ts : List TradeData) : ℚ :=
  (ts.map fun t => t.pnl_amount.getD 0).sum

/-- The daily-summary update of `save_trade_data`: take the loaded
summary (or the fresh empty one when the file does not exist), append
the record's snapshot, recompute `total_trades` and `total_pnl` from the
full list, and stamp `updated_at`. -/
def appendToSummary (trade : TradeData) (day nowIso : String)
    (prev : Option DailySummary) : DailySummary :=
  let summary : DailySummary :=
    match prev with
    | some s => s
    | Option.none =>
      { date := day, trades := [], total_trades := 0, total_pnl := 0
        created_at := nowIso, updated_at := Option.none }
  let trades2 := summary.trades ++ [trade]
  { summary with
    trades := trades2
    total_trades := trades2.length
    total_pnl := sumPnl trades2
    updated_at := some nowIso }

/-- `save_trade_data`: (1) always append the serialized record to the
JSONL log; (2) if `mode ∈ {"both", "json"}`, write the individual
artifact file; (3) if `mode ∈ {"both", "jsonl"}`, load (or initialize)
today's daily summary, append the record, recompute the totals from the
full list, stamp `updated_at`, and rewrite the file.  Returns the list
of paths written and the updated filesystem.  `day` stands for
`datetime.now().strftime("%Y-%m-%d")`, `nowIso` for
`datetime.now().isoformat()` and `ts` for the `%Y%m%d_%H%M%S` stamp. -/
def save_trade_data (trade : TradeData) (mode : String) (day nowIso ts : String)
    (fs : FS) : List String × FS :=
  let fs1 : FS := { fs with log := fs.log ++ [model_dump_json trade] }
  let saved1 : List String := [TRADE_LOG_PATH]
  let step2 : List String × FS :=
    if mode = "both" ∨ mode = "json" then
      let fp := artifactPath trade ts
      (saved1 ++ [fp], { fs1 with artifacts := fs1.artifacts ++ [(fp, model_dump_json trade)] })
    else (saved1, fs1)
  if mode = "both" ∨ mode = "jsonl" then
    let path := summaryPath day
    let summary2 := appendToSummary trade day nowIso (step2.2.summaries path)
    (step2.1 ++ [path], { step2.2 with summaries := setSummary step2.2.summaries path summary2 })
  else step2

/-! ## Orchestrator -/

deriving instance DecidableEq for Except

/-- The per-image external world: whether the path exists, what the OCR
engine returns (raw text, per-token confidences after the `int(c)`
attempt — `none` for an unparseable entry — recognized words, pixel
size), the structuring service's response (or its raised error), and the
fresh uuid / timestamps drawn while processing this image. -/
structure ImgEnv where
  found : Bool
  rawText : String
  confRaw : List (Option Int)
  words : List String
  width : Nat
  height : Nat
  aiResp : Except PyErr String
  uuid : String
  nowIso : String
  ts : String
deriving DecidableEq

/-- `extract_text_from_image`: raise `FileNotFoundError` when the path
does not exist; otherwise return the raw text and the confidence bundle:
mean of the token confidences strictly greater than 0 (0.0 when none
qualifies), count of non-blank tokens, pixel size. -/
def extract_text_from_image (image_path : String) (env : ImgEnv) :
    Except PyErr (String × OcrInfo) :=
  if !env.found then
    .error (.fileNotFound (String.append "Image not found: " image_path))
  else
    let confs := (env.confRaw.filterMap id).filter fun c => 0 < c
    let avg_conf : ℚ :=
      if confs.length = 0 then 0
      else (confs.map fun c => (Int.cast c : ℚ)).sum / (confs.length : ℚ)
    .ok (env.rawText,
      { confidence := avg_conf
        total_words := (env.words.filter fun w => pyStrip w != "").length
        image_size := (env.width, env.height) })

/-- `analyze_trade_with_ai`: one synchronous call to the external
chat-completion service; the response text or a raised service error,
both supplied by the environment. -/
def analyze_trade_with_ai (env : ImgEnv) : Except PyErr String :=
  env.aiResp

/-- The summary dict returned by `process_single_image`. -/
structure Summary where
  trade_id : String
  image : String
  ticker : Option String
  direction : Option String
  pnl_amount : Option ℚ
  confidence : ℚ
  saved_files : List String
deriving DecidableEq

/-- `process_single_image`: OCR → AI call → record building → save, any
raised error propagating to the caller (the `except` block re-raises). -/
def process_single_image (image_path : String) (env : ImgEnv) (save_mode : String)
    (day : String) (fs : FS) : Except PyErr (Summary × FS) := do
  let (_raw_text, ocr_info) ← extract_text_from_image image_path env
  let ai_json ← analyze_trade_with_ai env
  let trade ← create_trade_record ai_json image_path ocr_info env.uuid env.nowIso
  let filesFs := save_trade_data trade save_mode day env.nowIso env.ts fs
  .ok ({ trade_id := trade.trade_id
         image := basename image_path
         ticker := trade.ticker
         direction := trade.direction
         pnl_amount := trade.pnl_amount
         confidence := ocr_info.confidence
         saved_files := filesFs.1 }, filesFs.2)

def imageExts : List String := [".png", ".jpg", ".jpeg", ".bmp", ".gif", ".tiff"]

/-- Model of Python `str.lower()` (ASCII case folding). -/
def pyLower (s : String) : String :=
  String.mk (s.data.map Char.toLower)

/-- Model of Python `s.endswith(suffix)`. -/
def strEndsWith (suffix s : String) : Bool :=
  suffix.data.isSuffixOf s.data

/-- `f.lower().endswith(tuple(exts))`. -/
def isImageFile (f : String) : Bool :=
  imageExts.any fun e => strEndsWith e (pyLower f)

/-- One per-image line of the batch `details` list: either the success
summary or the image name with the caught error's message. -/
inductive BatchDetail where
  | ok (s : Summary)
  | fail (image : String) (error : String)
deriving DecidableEq

/-- The batch results dict. -/
structure BatchOut where
  total : Nat
  ok : Nat
  fail : Nat
  details : List BatchDetail
deriving DecidableEq

/-- The image list of batch mode:
`[os.path.join(folder, f) for f in os.listdir(folder) if f.lower().endswith(tuple(exts))]`. -/
def batchImages (entries : List String) (folder : String) : List String :=
  (entries.filter isImageFile).map fun f => String.append (String.append folder "/") f

/-- One iteration of the batch loop: try the image, recording either the
summary (counting `ok`) or the caught error's message (counting
`fail`). -/
def batchStep (envOf : String → ImgEnv) (save_mode day : String)
    (acc : BatchOut × FS) (img : String) : BatchOut × FS :=
  match process_single_image img (envOf img) save_mode day acc.2 with
  | .ok (res, fs2) =>
    ({ acc.1 with ok := acc.1.ok + 1, details := acc.1.details ++ [.ok res] }, fs2)
  | .error e =>
    ({ acc.1 with
       fail := acc.1.fail + 1
       details := acc.1.details ++ [.fail (basename img) (errMsg e)] }, acc.2)

/-- `process_multiple_images`: return an error dict when the path is not
a directory; filter the directory entries to the recognized image
extensions (case-insensitively) and error when none matches; otherwise
run `process_single_image` per file, catching each failure into that
image's detail entry.  `isdir` models `os.path.isdir(folder)`, `entries`
models `os.listdir(folder)`, and `envOf` supplies each joined path's
external world. -/
def process_multiple_images (isdir : Bool) (entries : List String) (folder : String)
    (envOf : String → ImgEnv) (save_mode : String) (day : String) (fs : FS) :
    Except String BatchOut × FS :=
  if !isdir then (.error (String.append "Folder not found: " folder), fs)
  else
    let images := batchImages entries folder
    if images = [] then (.error "No image files found", fs)
    else
      let final :=
        images.foldl (batchStep envOf save_mode day)
          (({ total := images.length, ok := 0, fail := 0, details := [] } : BatchOut), fs)
      (.ok final.1, final.2)

/-! ## Definitions used only by the theorems -/

/-- The token confidences the source averages: the `int(c)` successes
that are strictly positive. -/
def qualifyingConfs (env : ImgEnv) : List Int :=
  (env.confRaw.filterMap id).filter fun c => 0 < c

/-- Keep digit characters, drop everything else except the first `.`. -/
def keepFirstDot : Bool → List Char → List Char
  | _, [] => []
  | seen, c :: r =>
    if c.isDigit then c :: keepFirstDot seen r
    else if c = '.' then
      if seen then keepFirstDot seen r else '.' :: keepFirstDot true r
    else keepFirstDot seen r

/-- The cleaning step exactly as claim C3 words it (a second definition
following the claim's words, for comparison with the source's
`pnlClean`): retain only digits, a single decimal point, and a leading
sign. -/
def cleanClaimC3 (s : String) : String :=
  match s.data with
  | [] => ""
  | c :: r =>
    if c = '+' ∨ c = '-' then String.mk (c :: keepFirstDot false r)
    else String.mk (keepFirstDot false (c :: r))

/-- The cleaning step as the amended claim words it: retain digits,
decimal points and plus/minus signs wherever they occur. -/
def cleanAmendedC3 : List Char → List Char
  | [] => []
  | c :: r => if pnlKeep c then c :: cleanAmendedC3 r else cleanAmendedC3 r

/-- The result of one image's run, which does not depend on the starting
filesystem (only the writes do): `process_single_image` on the empty
filesystem, keeping the summary. -/
def fsEmpty : FS :=
  { log := [], artifacts := [], summaries := fun _ => Option.none }

def singleOutcome (image_path : String) (env : ImgEnv) (save_mode day : String) :
    Except PyErr Summary :=
  (process_single_image image_path env save_mode day fsEmpty).map Prod.fst

/-- The detail entry the batch loop records for one image. -/
def batchDetail (envOf : String → ImgEnv) (save_mode day : String) (img : String) :
    BatchDetail :=
  match singleOutcome img (envOf img) save_mode day with
  | .ok s => .ok s
  | .error e => .fail (basename img) (errMsg e)

def isOkDetail : BatchDetail → Bool
  | .ok _ => true
  | .fail _ _ => false

/-! ## Concrete fixtures for the witnesses -/

def tradeSample : TradeData :=
  { trade_id := "abc12345", pnl_amount := some (3807 / 100)
    logged_at := "2025-07-06T14:20:58" }

def envSampleOk : ImgEnv :=
  { found := true, rawText := "raw"
    confRaw := [some 90, some 96, some (-1), Option.none]
    words := ["SOLUSD", " "], width := 800, height := 600
    aiResp := .ok "\x7b\"ticker\": \"SOL\"\x7d"
    uuid := "123e4567-e89b-12d3-a456-426614174000"
    nowIso := "2025-07-06T14:20:58", ts := "20250706_142058" }

def envSampleBad : ImgEnv :=
  { envSampleOk with found := false }

def envSampleOf : String → ImgEnv :=
  fun p => if p = "dir/d.png" then envSampleBad else envSampleOk

/-! ## Theorems -/

/-- C4: numeric normalization is idempotent — for every input,
normalizing the result of `parse_pnl_amount` again yields the same value —
and cleaning the string `"+38.07 USD"` and cleaning the number `38.07`
both yield `38.07`. -/
theorem pnl_normalization_idempotent :
    (∀ v : PyVal, parse_pnl_amount (optToPy (parse_pnl_amount v)) = parse_pnl_amount v) ∧
    parse_pnl_amount (.str "+38.07 USD") = some (mkRat 3807 100) ∧
    parse_pnl_amount (.float (mkRat 3807 100)) = some (mkRat 3807 100) := by
  refine ⟨fun v => ?_, by decide, by decide⟩
  cases h : parse_pnl_amount v <;> simp [optToPy, parse_pnl_amount]

/-- C3, counterexample: the claim describes the cleaning as retaining
"only digits, a single decimal point, and a leading sign"
(`cleanClaimC3`), under which `"1..2"` cleans to `"1.2"` and parses to
`1.2`; the code's cleaning keeps every dot, so `float("1..2")` fails and
`parse_pnl_amount` returns `None` — the claim's predicted result differs
from the code's at this input. -/
theorem pnl_claim_cleaning_counterexample :
    cleanClaimC3 "1..2" = "1.2" ∧
    pyFloat (cleanClaimC3 "1..2") = some (mkRat 6 5) ∧
    parse_pnl_amount (.str "1..2") = Option.none ∧
    ¬ (parse_pnl_amount (.str "1..2") = pyFloat (cleanClaimC3 "1..2")) := by
  decide

theorem cleanAmendedC3_eq_filter (l : List Char) : cleanAmendedC3 l = l.filter pnlKeep := by
  induction l with
  | nil => rfl
  | cons c r ih => by_cases h : pnlKeep c <;> simp [cleanAmendedC3, List.filter_cons, h, ih]

/-- C3, amended: `parse_pnl_amount` passes numeric input through as a
float; a string is cleaned to retain only digits, decimal points and
plus/minus signs (all occurrences, not just a single point and a leading
sign), then parsed with `float`, a residual parse failure giving null;
`None`/`""` and non-scalar values give null.  The function is total
(returns `Option`), so normalization never raises. -/
theorem pnl_normalization_amended :
    parse_pnl_amount .none = Option.none ∧
    (∀ n : Int, parse_pnl_amount (.int n) = some (n : ℚ)) ∧
    (∀ q : ℚ, parse_pnl_amount (.float q) = some q) ∧
    parse_pnl_amount (.str "") = Option.none ∧
    (∀ s : String, s ≠ "" →
      parse_pnl_amount (.str s) =
        if String.mk (cleanAmendedC3 s.data) = "" then Option.none
        else pyFloat (String.mk (cleanAmendedC3 s.data))) := by
  refine ⟨rfl, fun n => rfl, fun q => rfl, rfl, fun s hs => ?_⟩
  rw [cleanAmendedC3_eq_filter]
  simp [parse_pnl_amount, hs, pnlClean]

/-- Witness for `pnl_normalization_amended` at `"+38.07 USD"`. -/
theorem pnl_normalization_amended_witness :
    ("+38.07 USD" : String) ≠ "" ∧
    parse_pnl_amount (.str "+38.07 USD") =
      (if String.mk (cleanAmendedC3 ("+38.07 USD" : String).data) = "" then Option.none
       else pyFloat (String.mk (cleanAmendedC3 ("+38.07 USD" : String).data))) :=
  ⟨by decide, pnl_normalization_amended.2.2.2.2 "+38.07 USD" (by decide)⟩

/-- C10: a structuring response that is valid JSON but not a JSON object
(the array text `"[1, 2]"`) makes `create_trade_record` raise — the
parsed value is a list and `data.get(...)` raises `AttributeError` — so
no Trade Record is produced. -/
theorem array_response_raises :
    create_trade_record "[1, 2]" "img.png" ⟨0, 0, (1, 1)⟩ "uuid0000" "2025-07-06T00:00:00" =
      .error (.attributeError "'list' object has no attribute 'get'") := by
  decide

/-- C9: for every built record and every save-mode selector,
`save_trade_data` appends the record as one serialized line to the
append-only log (the log update is the same in every mode, performed
before the optional artifact and aggregate writes), and the returned
list of written locations starts with — in particular contains — the log
path.  (Directory creation via `os.makedirs(..., exist_ok=True)` has no
observable effect in the filesystem model.) -/
theorem save_appends_log_first (trade : TradeData) (mode day nowIso ts : String) (fs : FS) :
    (save_trade_data trade mode day nowIso ts fs).2.log = fs.log ++ [model_dump_json trade] ∧
    (save_trade_data trade mode day nowIso ts fs).1.head? = some TRADE_LOG_PATH ∧
    TRADE_LOG_PATH ∈ (save_trade_data trade mode day nowIso ts fs).1 := by
  unfold save_trade_data
  by_cases h1 : mode = "both" ∨ mode = "json" <;>
    by_cases h2 : mode = "both" ∨ mode = "jsonl" <;>
      simp [h1, h2]

theorem save_trade_data_summaries (trade : TradeData) (mode day nowIso ts : String)
    (fs : FS) (hmode : mode = "both" ∨ mode = "jsonl") :
    (save_trade_data trade mode day nowIso ts fs).2.summaries =
      setSummary fs.summaries (summaryPath day)
        (appendToSummary trade day nowIso (fs.summaries (summaryPath day))) := by
  rcases hmode with rfl | rfl <;> rfl

/-- C1: under an aggregate-writing save mode, after each append the
day's Daily Aggregate has `total_trades` equal to the length of its
`trades` list and `total_pnl` equal to the sum of `pnl_amount` over the
trades (null read as 0), both recomputed from the full in-memory list —
for *any* prior filesystem state, hence after every append of any
sequence of appends. -/
theorem daily_aggregate_totals_consistent (trade : TradeData)
    (mode day nowIso ts : String) (fs : FS)
    (hmode : mode = "both" ∨ mode = "jsonl") :
    ∃ s : DailySummary,
      (save_trade_data trade mode day nowIso ts fs).2.summaries (summaryPath day) = some s ∧
      s.total_trades = s.trades.length ∧
      s.total_pnl = sumPnl s.trades := by
  refine ⟨appendToSummary trade day nowIso (fs.summaries (summaryPath day)), ?_, rfl, rfl⟩
  rw [save_trade_data_summaries trade mode day nowIso ts fs hmode]
  simp [setSummary]

/-- Witness for `daily_aggregate_totals_consistent` in mode `"jsonl"` on
the empty filesystem. -/
theorem daily_aggregate_totals_consistent_witness :
    (("jsonl" : String) = "both" ∨ ("jsonl" : String) = "jsonl") ∧
    (∃ s : DailySummary,
      (save_trade_data tradeSample "jsonl" "2025-07-06" "N" "TS" fsEmpty).2.summaries
          (summaryPath "2025-07-06") = some s ∧
      s.total_trades = s.trades.length ∧
      s.total_pnl = sumPnl s.trades) :=
  ⟨Or.inr rfl,
   daily_aggregate_totals_consistent tradeSample "jsonl" "2025-07-06" "N" "TS" fsEmpty
     (Or.inr rfl)⟩

/-- C2, counterexample: the claim quantifies over every response string
that is not valid JSON, but a fence-wrapped JSON object is not valid
JSON (`json.loads` on it fails) and still yields populated structured
fields, because the fence is stripped before parsing. -/
theorem nonjson_null_record_counterexample :
    jsonParse "```json\x7b\"ticker\": \"SOL\"\x7d```" = Option.none ∧
    ∃ t : TradeData,
      create_trade_record "```json\x7b\"ticker\": \"SOL\"\x7d```" "img.png"
        ⟨0, 0, (1, 1)⟩ "123e4567" "2025-07-06T00:00:00" = .ok t ∧
      t.ticker = some "SOL" :=
  ⟨rfl, ⟨_, rfl, rfl⟩⟩

/-- C2, amended: for every response whose cleaned text (after the
optional fence stripping) is not valid JSON, `create_trade_record` still
returns a record — it never raises — whose `trade_id` (first 8
characters of a fresh uuid) and `logged_at` are non-empty and whose nine
structured fields are all null. -/
theorem parse_failure_yields_null_record (ai_json image_path : String)
    (ocr_info : OcrInfo) (uuid nowIso : String)
    (hparse : jsonParse (cleanResponse ai_json) = Option.none)
    (huuid : uuid.data ≠ [])
    (hnow : nowIso ≠ "") :
    create_trade_record ai_json image_path ocr_info uuid nowIso =
      .ok { trade_id := strTake uuid 8
            ticker := Option.none
            timeframe := Option.none
            entry_price := Option.none
            exit_price := Option.none
            direction := Option.none
            pnl := Option.none
            pnl_amount := Option.none
            date_time := Option.none
            reason_or_annotations := Option.none
            image_source := some (basename image_path)
            logged_at := nowIso
            ocr_confidence := some (fmtPercent ocr_info.confidence) } ∧
    strTake uuid 8 ≠ "" ∧
    nowIso ≠ "" := by
  refine ⟨?_, ?_, hnow⟩
  · simp only [create_trade_record]
    rw [hparse]
    rfl
  · intro h
    apply huuid
    have hdata : uuid.data.take 8 = [] := congrArg String.data h
    rcases List.take_eq_nil_iff.mp hdata with h8 | hnil
    · exact absurd h8 (by decide)
    · exact hnil

/-- Witness for `parse_failure_yields_null_record` on a plain-text
response. -/
theorem parse_failure_yields_null_record_witness :
    jsonParse (cleanResponse "not json at all") = Option.none ∧
    ("123e4567-e89b-12d3-a456-426614174000" : String).data ≠ [] ∧
    ("2025-07-06T00:00:01" : String) ≠ "" ∧
    (create_trade_record "not json at all" "img.png" ⟨0, 0, (1, 1)⟩
        "123e4567-e89b-12d3-a456-426614174000" "2025-07-06T00:00:01" =
      .ok { trade_id := strTake "123e4567-e89b-12d3-a456-426614174000" 8
            ticker := Option.none
            timeframe := Option.none
            entry_price := Option.none
            exit_price := Option.none
            direction := Option.none
            pnl := Option.none
            pnl_amount := Option.none
            date_time := Option.none
            reason_or_annotations := Option.none
            image_source := some (basename "img.png")
            logged_at := "2025-07-06T00:00:01"
            ocr_confidence := some (fmtPercent (0 : ℚ)) } ∧
      strTake "123e4567-e89b-12d3-a456-426614174000" 8 ≠ "" ∧
      ("2025-07-06T00:00:01" : String) ≠ "") :=
  ⟨rfl, by decide, by decide,
   parse_failure_yields_null_record "not json at all" "img.png" ⟨0, 0, (1, 1)⟩
     "123e4567-e89b-12d3-a456-426614174000" "2025-07-06T00:00:01" rfl
     (by decide) (by decide)⟩

/-- C5: for every image whose path exists, `extract_text_from_image`
succeeds and returns a confidence equal to the arithmetic mean of the
token-level confidences strictly greater than the no-detection sentinel
(0, per the policy of excluding non-positive per-token confidences),
equal to 0.0 when no token qualifies, and always within [0, 100]
(assuming the OCR engine's per-token range of at most 100). -/
theorem ocr_confidence_mean_and_bounds (image_path : String) (env : ImgEnv)
    (hfound : env.found = true)
    (hrange : ∀ c ∈ env.confRaw.filterMap id, c ≤ 100) :
    ∃ info : OcrInfo,
      extract_text_from_image image_path env = .ok (env.rawText, info) ∧
      info.confidence =
        (if (qualifyingConfs env).length = 0 then 0
         else ((qualifyingConfs env).map fun c => (Int.cast c : ℚ)).sum /
           ((qualifyingConfs env).length : ℚ)) ∧
      (qualifyingConfs env = [] → info.confidence = 0) ∧
      0 ≤ info.confidence ∧ info.confidence ≤ 100 := by
  have hred : extract_text_from_image image_path env =
      .ok (env.rawText,
        { confidence :=
            if (qualifyingConfs env).length = 0 then 0
            else ((qualifyingConfs env).map fun c => (Int.cast c : ℚ)).sum /
              ((qualifyingConfs env).length : ℚ)
          total_words := (env.words.filter fun w => pyStrip w != "").length
          image_size := (env.width, env.height) }) := by
    unfold extract_text_from_image qualifyingConfs
    rw [hfound]
    rfl
  have hmem0 : ∀ x ∈ ((qualifyingConfs env).map fun c => (Int.cast c : ℚ)), 0 ≤ x := by
    intro x hx
    rcases List.mem_map.mp hx with ⟨c, hc, rfl⟩
    have hcpos : 0 < c := by simpa using (List.mem_filter.mp hc).2
    exact_mod_cast hcpos.le
  have hmem100 : ∀ x ∈ ((qualifyingConfs env).map fun c => (Int.cast c : ℚ)), x ≤ 100 := by
    intro x hx
    rcases List.mem_map.mp hx with ⟨c, hc, rfl⟩
    have hc100 : c ≤ 100 := hrange c (List.mem_filter.mp hc).1
    exact_mod_cast hc100
  refine ⟨_, hred, rfl, ?_, ?_, ?_⟩
  · intro h
    simp [h]
  · by_cases h0 : (qualifyingConfs env).length = 0
    · simp [h0]
    · have hlenpos : (0 : ℚ) < ((qualifyingConfs env).length : ℚ) := by
        exact_mod_cast Nat.pos_of_ne_zero h0
      simp only [h0, if_false]
      exact div_nonneg (List.sum_nonneg hmem0) hlenpos.le
  · by_cases h0 : (qualifyingConfs env).length = 0
    · simp [h0]
    · have hlenpos : (0 : ℚ) < ((qualifyingConfs env).length : ℚ) := by
        exact_mod_cast Nat.pos_of_ne_zero h0
      have hsum := List.sum_le_card_nsmul ((qualifyingConfs env).map fun c => (Int.cast c : ℚ)) 100 hmem100
      rw [List.length_map, nsmul_eq_mul] at hsum
      simp only [h0, if_false]
      rw [div_le_iff₀ hlenpos]
      calc ((qualifyingConfs env).map fun c => (Int.cast c : ℚ)).sum
          ≤ ((qualifyingConfs env).length : ℚ) * 100 := hsum
        _ = 100 * ((qualifyingConfs env).length : ℚ) := mul_comm _ _

/-- Witness for `ocr_confidence_mean_and_bounds` on a concrete OCR
bundle with confidences `[90, 96, -1]` and one unparseable entry. -/
theorem ocr_confidence_mean_and_bounds_witness :
    envSampleOk.found = true ∧
    (∀ c ∈ envSampleOk.confRaw.filterMap id, c ≤ 100) ∧
    (∃ info : OcrInfo,
      extract_text_from_image "img.png" envSampleOk = .ok (envSampleOk.rawText, info) ∧
      info.confidence =
        (if (qualifyingConfs envSampleOk).length = 0 then 0
         else ((qualifyingConfs envSampleOk).map fun c => (Int.cast c : ℚ)).sum /
           ((qualifyingConfs envSampleOk).length : ℚ)) ∧
      (qualifyingConfs envSampleOk = [] → info.confidence = 0) ∧
      0 ≤ info.confidence ∧ info.confidence ≤ 100) :=
  ⟨rfl, by decide, ocr_confidence_mean_and_bounds "img.png" envSampleOk rfl (by decide)⟩

theorem stripList_wrapped (l : List Char) :
    stripList ('`' :: (l ++ ['`'])) = '`' :: (l ++ ['`']) := by
  unfold stripList
  rw [List.dropWhile_cons_of_neg (by decide)]
  rw [show ('`' :: (l ++ ['`'])).reverse = '`' :: (l.reverse ++ ['`']) by simp]
  rw [List.dropWhile_cons_of_neg (by decide)]
  simp

theorem pyStrip_wrapped (body : String) :
    pyStrip ("```json" ++ body ++ "```") = "```json" ++ body ++ "```" := by
  have hshape : ("```json" ++ body ++ "```").data
      = '`' :: (('`':: '`':: 'j':: 's':: 'o':: 'n':: (body.data ++ ['`','`'])) ++ ['`']) := by
    rw [show ("```json" ++ body ++ "```").data
        = '`':: '`':: '`':: 'j':: 's':: 'o':: 'n':: (body.data ++ ['`','`','`']) from rfl]
    simp
  unfold pyStrip
  rw [hshape, stripList_wrapped, ← hshape]

theorem pySlice_wrapped (body : String) :
    pySlice ("```json" ++ body ++ "```") 7 3 = body := by
  unfold pySlice
  rw [show ("```json" ++ body ++ "```").data.drop 7 = body.data ++ ['`','`','`'] from rfl]
  rw [List.length_append]
  rw [show (['`', '`', '`'] : List Char).length = 3 from rfl]
  rw [Nat.add_sub_cancel]
  rw [List.take_left]

theorem strStartsWith_wrapped (body : String) :
    strStartsWith "```json" ("```json" ++ body ++ "```") = true := by
  simp only [strStartsWith]
  rw [show ("```json" ++ body ++ "```").data
      = '`':: '`':: '`':: 'j':: 's':: 'o':: 'n':: (body.data ++ ['`','`','`']) from rfl]
  simp [List.isPrefixOf]

theorem strStartsWith_three_of_seven (s : String)
    (h : strStartsWith "```" s = false) : strStartsWith "```json" s = false := by
  by_contra hc
  have h7 : "```json".data <+: s.data :=
    List.isPrefixOf_iff_prefix.mp (eq_true_of_ne_false hc)
  have h3 : "```".data <+: "```json".data := ⟨['j', 's', 'o', 'n'], rfl⟩
  have : strStartsWith "```" s = true :=
    List.isPrefixOf_iff_prefix.mpr (h3.trans h7)
  rw [h] at this
  exact Bool.noConfusion this

theorem pyStrip_bare_wrapped (body : String) :
    pyStrip ("```" ++ body ++ "```") = "```" ++ body ++ "```" := by
  have hshape : ("```" ++ body ++ "```").data
      = '`' :: (('`' :: '`' :: (body.data ++ ['`', '`'])) ++ ['`']) := by
    rw [show ("```" ++ body ++ "```").data
        = '`' :: '`' :: '`' :: (body.data ++ ['`', '`', '`']) from rfl]
    simp
  unfold pyStrip
  rw [hshape, stripList_wrapped, ← hshape]

theorem pySlice_bare_wrapped (body : String) :
    pySlice ("```" ++ body ++ "```") 3 3 = body := by
  unfold pySlice
  rw [show ("```" ++ body ++ "```").data.drop 3 = body.data ++ ['`', '`', '`'] from rfl]
  rw [List.length_append]
  rw [show (['`', '`', '`'] : List Char).length = 3 from rfl]
  rw [Nat.add_sub_cancel]
  rw [List.take_left]

theorem strStartsWith_bare_wrapped (body : String) :
    strStartsWith "```" ("```" ++ body ++ "```") = true := by
  simp only [strStartsWith]
  rw [show ("```" ++ body ++ "```").data
      = '`' :: '`' :: '`' :: (body.data ++ ['`', '`', '`']) from rfl]
  simp [List.isPrefixOf]

theorem isPrefixOf_json_append (l : List Char)
    (h : List.isPrefixOf ['j', 's', 'o', 'n'] l = false) :
    List.isPrefixOf ['j', 's', 'o', 'n'] (l ++ ['`', '`', '`']) = false := by
  rcases l with _ | ⟨a, _ | ⟨b, _ | ⟨c, _ | ⟨d, r⟩⟩⟩⟩
  · decide
  · simp [List.isPrefixOf, show (('s' : Char) == '`') = false from rfl]
  · simp [List.isPrefixOf, show (('o' : Char) == '`') = false from rfl]
  · simp [List.isPrefixOf, show (('n' : Char) == '`') = false from rfl]
  · simp only [List.isPrefixOf, List.cons_append] at h ⊢
    simpa using h

theorem strStartsWith_json_of_bare (body : String)
    (hjson : strStartsWith "json" body = false) :
    strStartsWith "```json" ("```" ++ body ++ "```") = false := by
  have h : List.isPrefixOf ['j', 's', 'o', 'n'] body.data = false := hjson
  show List.isPrefixOf "```json".data ("```" ++ body ++ "```").data = false
  rw [show ("```" ++ body ++ "```").data
      = '`' :: '`' :: '`' :: (body.data ++ ['`', '`', '`']) from rfl]
  rw [show ("```json" : String).data = ['`', '`', '`', 'j', 's', 'o', 'n'] from rfl]
  simp only [List.isPrefixOf, show (('`' : Char) == '`') = true from rfl, Bool.true_and]
  exact isPrefixOf_json_append body.data h

/-- C8: a structuring response wrapped in a code fence — either the
`"```json"` form or the bare `"```"` form the code's elif branch
handles — is stripped before parsing, so `create_trade_record` returns
the same record as for the unwrapped body (for bodies that do not
themselves begin with a fence or with the text `json`, which a JSON
body never does). -/
theorem fenced_response_strips_to_body (body image_path : String) (ocr_info : OcrInfo)
    (uuid nowIso : String)
    (hbody : strStartsWith "```" (pyStrip body) = false)
    (hjson : strStartsWith "json" body = false) :
    create_trade_record ("```json" ++ body ++ "```") image_path ocr_info uuid nowIso =
      create_trade_record body image_path ocr_info uuid nowIso ∧
    create_trade_record ("```" ++ body ++ "```") image_path ocr_info uuid nowIso =
      create_trade_record body image_path ocr_info uuid nowIso := by
  have h7 : strStartsWith "```json" (pyStrip body) = false :=
    strStartsWith_three_of_seven _ hbody
  constructor
  · have hclean : cleanResponse ("```json" ++ body ++ "```") = cleanResponse body := by
      simp only [cleanResponse]
      rw [pyStrip_wrapped, strStartsWith_wrapped, pySlice_wrapped, h7, hbody]
      simp
    unfold create_trade_record
    rw [hclean]
  · have hclean : cleanResponse ("```" ++ body ++ "```") = cleanResponse body := by
      simp only [cleanResponse]
      rw [pyStrip_bare_wrapped, strStartsWith_json_of_bare body hjson,
        strStartsWith_bare_wrapped, pySlice_bare_wrapped, h7, hbody]
      simp
    unfold create_trade_record
    rw [hclean]

/-- Witness for `fenced_response_strips_to_body` on a JSON object under
both fence forms. -/
theorem fenced_response_strips_to_body_witness :
    strStartsWith "```" (pyStrip "\x7b\"ticker\": \"SOL\"\x7d") = false ∧
    strStartsWith "json" "\x7b\"ticker\": \"SOL\"\x7d" = false ∧
    (create_trade_record ("```json" ++ "\x7b\"ticker\": \"SOL\"\x7d" ++ "```")
        "img.png" ⟨0, 0, (1, 1)⟩ "123e4567" "2025-07-06T00:00:02" =
      create_trade_record "\x7b\"ticker\": \"SOL\"\x7d"
        "img.png" ⟨0, 0, (1, 1)⟩ "123e4567" "2025-07-06T00:00:02" ∧
    create_trade_record ("```" ++ "\x7b\"ticker\": \"SOL\"\x7d" ++ "```")
        "img.png" ⟨0, 0, (1, 1)⟩ "123e4567" "2025-07-06T00:00:02" =
      create_trade_record "\x7b\"ticker\": \"SOL\"\x7d"
        "img.png" ⟨0, 0, (1, 1)⟩ "123e4567" "2025-07-06T00:00:02") :=
  ⟨rfl, rfl,
   fenced_response_strips_to_body "\x7b\"ticker\": \"SOL\"\x7d" "img.png"
     ⟨0, 0, (1, 1)⟩ "123e4567" "2025-07-06T00:00:02" rfl rfl⟩

theorem except_bind_ok {ε α β : Type} (a : α) (f : α → Except ε β) :
    ((Except.ok a : Except ε α) >>= f) = f a := rfl

theorem save_trade_data_fst (trade : TradeData) (mode day nowIso ts : String)
    (fs fs' : FS) :
    (save_trade_data trade mode day nowIso ts fs).1 =
      (save_trade_data trade mode day nowIso ts fs').1 := by
  unfold save_trade_data
  by_cases h1 : mode = "both" ∨ mode = "json" <;>
    by_cases h2 : mode = "both" ∨ mode = "jsonl" <;>
      simp [h1, h2]

theorem process_single_image_fst (p : String) (env : ImgEnv) (mode day : String)
    (fs : FS) :
    (process_single_image p env mode day fs).map Prod.fst = singleOutcome p env mode day := by
  unfold singleOutcome process_single_image analyze_trade_with_ai
  cases hX : extract_text_from_image p env with
  | error e => rfl
  | ok pr =>
    obtain ⟨raw, ocr⟩ := pr
    simp only [except_bind_ok]
    cases hA : env.aiResp with
    | error e => rfl
    | ok resp =>
      simp only [except_bind_ok]
      cases hC : create_trade_record resp p ocr env.uuid env.nowIso with
      | error e => rfl
      | ok trade =>
        simp only [except_bind_ok]
        exact congrArg
          (fun l : List String =>
            (Except.ok
              { trade_id := trade.trade_id, image := basename p, ticker := trade.ticker
                direction := trade.direction, pnl_amount := trade.pnl_amount
                confidence := ocr.confidence, saved_files := l } : Except PyErr Summary))
          (save_trade_data_fst trade mode day env.nowIso env.ts fs fsEmpty)

theorem countP_ok_add_countP_fail (l : List BatchDetail) :
    l.countP isOkDetail + l.countP (fun d => !isOkDetail d) = l.length := by
  induction l with
  | nil => rfl
  | cons d r ih => cases hd : isOkDetail d <;> simp [List.countP_cons, hd, ← ih] <;> omega

theorem batch_foldl_spec (envOf : String → ImgEnv) (mode day : String)
    (imgs : List String) :
    ∀ (b : BatchOut) (fs : FS),
      ((imgs.foldl (batchStep envOf mode day) (b, fs)).1.total = b.total) ∧
      ((imgs.foldl (batchStep envOf mode day) (b, fs)).1.details
        = b.details ++ imgs.map (batchDetail envOf mode day)) ∧
      ((imgs.foldl (batchStep envOf mode day) (b, fs)).1.ok
        = b.ok + (imgs.map (batchDetail envOf mode day)).countP isOkDetail) ∧
      ((imgs.foldl (batchStep envOf mode day) (b, fs)).1.fail
        = b.fail + (imgs.map (batchDetail envOf mode day)).countP (fun d => !isOkDetail d)) := by
  induction imgs with
  | nil => intro b fs; simp
  | cons img rest ih =>
    intro b fs
    rw [List.foldl_cons]
    cases hout : process_single_image img (envOf img) mode day fs with
    | ok pfs =>
      obtain ⟨res, fs2⟩ := pfs
      have hdet : batchDetail envOf mode day img = .ok res := by
        unfold batchDetail
        rw [show singleOutcome img (envOf img) mode day = .ok res by
          rw [← process_single_image_fst img (envOf img) mode day fs, hout]; rfl]
      have hstep : batchStep envOf mode day (b, fs) img =
          ({ b with ok := b.ok + 1, details := b.details ++ [.ok res] }, fs2) := by
        unfold batchStep
        rw [hout]
      rw [hstep]
      obtain ⟨ht, hd, ho, hf⟩ := ih { b with ok := b.ok + 1, details := b.details ++ [.ok res] } fs2
      refine ⟨ht, ?_, ?_, ?_⟩
      · rw [hd]
        simp [hdet]
      · rw [ho]
        simp [hdet, List.countP_cons, isOkDetail]
        try omega
      · rw [hf]
        simp [hdet, List.countP_cons, isOkDetail]
        try omega
    | error e =>
      have hdet : batchDetail envOf mode day img = .fail (basename img) (errMsg e) := by
        unfold batchDetail
        rw [show singleOutcome img (envOf img) mode day = .error e by
          rw [← process_single_image_fst img (envOf img) mode day fs, hout]; rfl]
      have hstep : batchStep envOf mode day (b, fs) img =
          ({ b with
             fail := b.fail + 1
             details := b.details ++ [.fail (basename img) (errMsg e)] }, fs) := by
        unfold batchStep
        rw [hout]
      rw [hstep]
      obtain ⟨ht, hd, ho, hf⟩ := ih
        { b with
          fail := b.fail + 1
          details := b.details ++ [.fail (basename img) (errMsg e)] } fs
      refine ⟨ht, ?_, ?_, ?_⟩
      · rw [hd]
        simp [hdet]
      · rw [ho]
        simp [hdet, List.countP_cons, isOkDetail]
        try omega
      · rw [hf]
        simp [hdet, List.countP_cons, isOkDetail]
        try omega

/-- C6: in batch mode over a directory with at least one matching image,
every image is attempted regardless of prior failures: the result's
`details` records, per image in order, either the success summary or
that image's error message; `total` equals the number of matched images
and `total = ok + fail`. -/
theorem batch_attempts_every_image (entries : List String) (folder : String)
    (envOf : String → ImgEnv) (mode day : String) (fs : FS)
    (himg : batchImages entries folder ≠ []) :
    (process_multiple_images true entries folder envOf mode day fs).1 =
      .ok { total := (batchImages entries folder).length
            ok := ((batchImages entries folder).map (batchDetail envOf mode day)).countP
              isOkDetail
            fail := ((batchImages entries folder).map (batchDetail envOf mode day)).countP
              (fun d => !isOkDetail d)
            details := (batchImages entries folder).map (batchDetail envOf mode day) } ∧
    (batchImages entries folder).length =
      ((batchImages entries folder).map (batchDetail envOf mode day)).countP isOkDetail +
      ((batchImages entries folder).map (batchDetail envOf mode day)).countP
        (fun d => !isOkDetail d) := by
  constructor
  · unfold process_multiple_images
    rw [if_neg (by simp)]
    · rw [if_neg himg]
      obtain ⟨ht, hd, ho, hf⟩ := batch_foldl_spec envOf mode day (batchImages entries folder)
        { total := (batchImages entries folder).length, ok := 0, fail := 0, details := [] } fs
      have hout : ((batchImages entries folder).foldl (batchStep envOf mode day)
          (({ total := (batchImages entries folder).length, ok := 0, fail := 0,
              details := [] } : BatchOut), fs)).1 =
          { total := (batchImages entries folder).length
            ok := ((batchImages entries folder).map (batchDetail envOf mode day)).countP
              isOkDetail
            fail := ((batchImages entries folder).map (batchDetail envOf mode day)).countP
              (fun d => !isOkDetail d)
            details := (batchImages entries folder).map (batchDetail envOf mode day) } := by
        rw [show ((batchImages entries folder).foldl (batchStep envOf mode day)
            (({ total := (batchImages entries folder).length, ok := 0, fail := 0,
                details := [] } : BatchOut), fs)).1 =
            ⟨((batchImages entries folder).foldl (batchStep envOf mode day)
              (({ total := (batchImages entries folder).length, ok := 0, fail := 0,
                  details := [] } : BatchOut), fs)).1.total,
             ((batchImages entries folder).foldl (batchStep envOf mode day)
              (({ total := (batchImages entries folder).length, ok := 0, fail := 0,
                  details := [] } : BatchOut), fs)).1.ok,
             ((batchImages entries folder).foldl (batchStep envOf mode day)
              (({ total := (batchImages entries folder).length, ok := 0, fail := 0,
                  details := [] } : BatchOut), fs)).1.fail,
             ((batchImages entries folder).foldl (batchStep envOf mode day)
              (({ total := (batchImages entries folder).length, ok := 0, fail := 0,
                  details := [] } : BatchOut), fs)).1.details⟩ from rfl]
        rw [ht, hd, ho, hf]
        simp
      exact congrArg Except.ok hout
  · rw [← List.length_map ((batchImages entries folder)) (batchDetail envOf mode day)]
    exact (countP_ok_add_countP_fail _).symm

/-- Witness for `batch_attempts_every_image`: the spec's example of
three processable images plus one whose file is missing. -/
theorem batch_attempts_every_image_witness :
    batchImages ["a.png", "b.png", "c.png", "d.png"] "dir" ≠ [] ∧
    ((process_multiple_images true ["a.png", "b.png", "c.png", "d.png"] "dir"
        envSampleOf "both" "2025-07-06" fsEmpty).1 =
      .ok { total := (batchImages ["a.png", "b.png", "c.png", "d.png"] "dir").length
            ok := ((batchImages ["a.png", "b.png", "c.png", "d.png"] "dir").map
              (batchDetail envSampleOf "both" "2025-07-06")).countP isOkDetail
            fail := ((batchImages ["a.png", "b.png", "c.png", "d.png"] "dir").map
              (batchDetail envSampleOf "both" "2025-07-06")).countP
              (fun d => !isOkDetail d)
            details := (batchImages ["a.png", "b.png", "c.png", "d.png"] "dir").map
              (batchDetail envSampleOf "both" "2025-07-06") } ∧
    (batchImages ["a.png", "b.png", "c.png", "d.png"] "dir").length =
      ((batchImages ["a.png", "b.png", "c.png", "d.png"] "dir").map
        (batchDetail envSampleOf "both" "2025-07-06")).countP isOkDetail +
      ((batchImages ["a.png", "b.png", "c.png", "d.png"] "dir").map
        (batchDetail envSampleOf "both" "2025-07-06")).countP (fun d => !isOkDetail d)) :=
  ⟨by decide,
   batch_attempts_every_image ["a.png", "b.png", "c.png", "d.png"] "dir"
     envSampleOf "both" "2025-07-06" fsEmpty (by decide)⟩

/-- C7: batch mode fails with the folder-not-found error when the path
is not a directory, and with the no-images-found error when no directory
entry matches the recognized image extensions (matched
case-insensitively via `isImageFile`); in both cases the filesystem —
log, artifacts and aggregates — is returned unchanged: no writes are
performed. -/
theorem batch_entry_validation (isdir : Bool) (entries : List String) (folder : String)
    (envOf : String → ImgEnv) (mode day : String) (fs : FS) :
    (isdir = false →
      process_multiple_images isdir entries folder envOf mode day fs =
        (.error (String.append "Folder not found: " folder), fs)) ∧
    (isdir = true → batchImages entries folder = [] →
      process_multiple_images isdir entries folder envOf mode day fs =
        (.error "No image files found", fs)) := by
  constructor
  · rintro rfl
    rfl
  · rintro rfl h
    simp [process_multiple_images, h]

/-- Witness for `batch_entry_validation`: a missing folder, and a folder
holding only a non-image file. -/
theorem batch_entry_validation_witness :
    (false = false →
      process_multiple_images false [] "nope" envSampleOf "both" "d" fsEmpty =
        (.error (String.append "Folder not found: " "nope"), fsEmpty)) ∧
    (true = true → batchImages ["x.txt"] "dir" = [] →
      process_multiple_images true ["x.txt"] "dir" envSampleOf "both" "d" fsEmpty =
        (.error "No image files found", fsEmpty)) ∧
    batchImages ["x.txt"] "dir" = [] :=
  ⟨(batch_entry_validation false [] "nope" envSampleOf "both" "d" fsEmpty).1,
   (batch_entry_validation true ["x.txt"] "dir" envSampleOf "both" "d" fsEmpty).2,
   by decide⟩

end TradeExtract
